import Mathlib

/-!
# Verification of the Hallar DSS risk-calculation core

A shallow embedding of the calculation pipeline of the `hallar_risk_factors`
package (risk_calculator.py, structural_factors.py, risk_sensitivities.py,
goal_impacts.py, goal_scoring.py) and of the display-ranking utility in
app.py, together with proofs and refutations of the specification's claims.

Modelling conventions:
* Python floats are modelled as real numbers (`ℝ`); `math.log`, `math.exp`
  and `**` become `Real.log`, `Real.exp` and `Real.rpow`.
* Python code that can raise an uncaught exception is modelled with
  `Option`: `none` is an uncaught exception (in this code base the only
  reachable one is the `AttributeError` raised by `getattr(scenario, "F7")`:
  the `ScenarioFactors` dataclass defines only the fields `F1`..`F6`, factor
  `F7` having been removed from the scenario model in data-model v5, while
  `risk_sensitivities.py` and `goal_scoring.py` still reference `"F7"`).
* Catalog records keep the fields the calculations read; display-only
  string fields (Icelandic/English display names, per-record rationale
  text, the diagnostic `details` dict of `_logistic_transform`, and the
  human-readable message component of breakdown triples) are omitted, so a
  breakdown entry is the pair (factor_id, effect) of its structural data.
-/

/-- `FactorDirection` enum of risk_sensitivities.py. -/
inductive FactorDirection where
  | PROTECTIVE
  | EXPOSURE
deriving DecidableEq, Repr

/-- `Sensitivity` enum of risk_sensitivities.py (LOW/MEDIUM/HIGH/CRITICAL). -/
inductive Sensitivity where
  | LOW
  | MEDIUM
  | HIGH
  | CRITICAL
deriving DecidableEq, Repr

/-- The numeric `.value` of the `Sensitivity` enum: LOW=0.5, MEDIUM=1.0,
HIGH=1.5, CRITICAL=2.0. -/
noncomputable def Sensitivity.value : Sensitivity → ℝ
  | .LOW => 0.5
  | .MEDIUM => 1.0
  | .HIGH => 1.5
  | .CRITICAL => 2.0

/-- `NEUTRAL_FACTOR = 3.0` (risk_calculator.py). -/
noncomputable def NEUTRAL_FACTOR : ℝ := 3.0

/-- `PROB_FLOOR = 1e-15` (risk_calculator.py). -/
noncomputable def PROB_FLOOR : ℝ := 1e-15

/-- `PROB_CEIL = 1.0 - 1e-15` (risk_calculator.py). -/
noncomputable def PROB_CEIL : ℝ := 1.0 - 1e-15

/-- `calculate_factor_effect` (risk_calculator.py lines 44-81): deviation
from the neutral score 3, the PROTECTIVE/EXPOSURE base ratio, the 0.2
floor, and the sensitivity exponent applied with `**` (real power). -/
noncomputable def calculate_factor_effect (factor_score : ℤ)
    (direction : FactorDirection) (sensitivity : Sensitivity) : ℝ :=
  let deviation : ℝ := (factor_score : ℝ) - NEUTRAL_FACTOR
  let base_effect : ℝ :=
    match direction with
    | .PROTECTIVE => NEUTRAL_FACTOR / (NEUTRAL_FACTOR + deviation)
    | .EXPOSURE => (NEUTRAL_FACTOR + deviation) / NEUTRAL_FACTOR
  let base_effect := max 0.2 base_effect
  base_effect ^ sensitivity.value

/-- `_logistic_transform` (risk_calculator.py lines 84-134): input clamp to
[0.001, 0.999], log-odds, per-effect `ln(max(0.001, effect))` adjustments
summed in list order, the ±700 overflow guard around the sigmoid, and the
final clamp to [PROB_FLOOR, PROB_CEIL].  The Python function also returns a
diagnostic `details` dict of already-computed intermediate values; only the
probability is modelled. -/
noncomputable def logistic_transform (base_prob : ℝ) (factor_effects : List ℝ) : ℝ :=
  let base_prob := max 0.001 (min 0.999 base_prob)
  let base_log_odds := Real.log (base_prob / (1.0 - base_prob))
  let total_adjustment := (factor_effects.map (fun effect => Real.log (max 0.001 effect))).sum
  let adjusted_log_odds := base_log_odds + total_adjustment
  let adjusted_prob :=
    if adjusted_log_odds > 700 then PROB_CEIL
    else if adjusted_log_odds < -700 then PROB_FLOOR
    else 1.0 / (1.0 + Real.exp (-adjusted_log_odds))

  max PROB_FLOOR (min PROB_CEIL adjusted_prob)

-- ───────────────────────── helper lemmas ─────────────────────────

lemma prob_floor_pos : (0 : ℝ) < PROB_FLOOR := by
  unfold PROB_FLOOR; norm_num

lemma prob_ceil_lt_one : PROB_CEIL < 1 := by
  unfold PROB_CEIL; norm_num

lemma prob_floor_le_ceil : PROB_FLOOR ≤ PROB_CEIL := by
  unfold PROB_FLOOR PROB_CEIL; norm_num

/-- `e ^ 700` dominates `10 ^ 15`, the scale at which the final clamp and
the overflow guard interact. -/
lemma exp_700_large : (1e15 : ℝ) ≤ Real.exp 700 := by
  have h36 : (36 : ℝ) ≤ Real.exp 35 := by
    have := Real.add_one_le_exp (35 : ℝ)
    linarith
  have hpow : (36 : ℝ) ^ (20 : ℕ) ≤ (Real.exp 35) ^ (20 : ℕ) :=
    pow_le_pow_left₀ (by norm_num) h36 20
  have hexp : (Real.exp 35) ^ (20 : ℕ) = Real.exp 700 := by
    rw [← Real.exp_nat_mul]
    norm_num
  calc (1e15 : ℝ) ≤ (36 : ℝ) ^ (20 : ℕ) := by norm_num
    _ ≤ (Real.exp 35) ^ (20 : ℕ) := hpow
    _ = Real.exp 700 := hexp

lemma exp_neg_700_small : Real.exp (-700) ≤ (1e-15 : ℝ) := by
  have h := exp_700_large
  have hpos : (0 : ℝ) < Real.exp 700 := Real.exp_pos _
  rw [Real.exp_neg]
  calc (Real.exp 700)⁻¹ ≤ ((1e15 : ℝ))⁻¹ := by
        exact inv_anti₀ (by norm_num) h
    _ = (1e-15 : ℝ) := by norm_num

/-- The sigmoid is monotone. -/
lemma sigmoid_mono {x y : ℝ} (h : x ≤ y) :
    1.0 / (1.0 + Real.exp (-x)) ≤ 1.0 / (1.0 + Real.exp (-y)) := by
  have hexp : Real.exp (-y) ≤ Real.exp (-x) := Real.exp_le_exp.mpr (by linarith)
  have hy : (0 : ℝ) < 1.0 + Real.exp (-y) := by positivity
  have hx : (0 : ℝ) < 1.0 + Real.exp (-x) := by positivity
  rw [div_le_div_iff₀ hx hy]
  nlinarith

/-- At log-odds 700 the sigmoid already exceeds `PROB_CEIL`. -/
lemma sigmoid_700_ge_ceil : PROB_CEIL ≤ 1.0 / (1.0 + Real.exp (-(700 : ℝ))) := by
  have he : Real.exp (-(700 : ℝ)) ≤ 1e-15 := exp_neg_700_small
  have hpos : (0 : ℝ) < Real.exp (-(700 : ℝ)) := Real.exp_pos _
  have hden : (0 : ℝ) < 1.0 + Real.exp (-(700 : ℝ)) := by positivity
  unfold PROB_CEIL
  rw [le_div_iff₀ hden]
  nlinarith

/-- At log-odds −700 the sigmoid is already below `PROB_FLOOR`. -/
lemma sigmoid_neg_700_le_floor :
    1.0 / (1.0 + Real.exp (-(-700 : ℝ))) ≤ PROB_FLOOR := by
  have he : (1e15 : ℝ) ≤ Real.exp 700 := exp_700_large
  have hden : (0 : ℝ) < 1.0 + Real.exp ((700 : ℝ)) := by positivity
  unfold PROB_FLOOR
  have : (1.0 : ℝ) + Real.exp (-(-700 : ℝ)) = 1.0 + Real.exp 700 := by norm_num
  rw [this, div_le_iff₀ hden]
  nlinarith

/-- Clamping the guarded branch to [PROB_FLOOR, PROB_CEIL] gives the same
value as clamping the raw sigmoid: the guard only changes the result where
the clamp saturates anyway. -/
lemma clamped_guard_eq_clamped_sigmoid (x : ℝ) :
    max PROB_FLOOR (min PROB_CEIL
      (if x > 700 then PROB_CEIL
       else if x < -700 then PROB_FLOOR
       else 1.0 / (1.0 + Real.exp (-x)))) =
    max PROB_FLOOR (min PROB_CEIL (1.0 / (1.0 + Real.exp (-x)))) := by
  split_ifs with h1 h2
  · have hs : PROB_CEIL ≤ 1.0 / (1.0 + Real.exp (-x)) :=
      le_trans sigmoid_700_ge_ceil (sigmoid_mono (by linarith))
    rw [min_self, min_eq_left hs]
  · have hs : 1.0 / (1.0 + Real.exp (-x)) ≤ PROB_FLOOR :=
      le_trans (sigmoid_mono (by linarith)) sigmoid_neg_700_le_floor
    rw [min_eq_right prob_floor_le_ceil, max_self,
        min_eq_right (hs.trans prob_floor_le_ceil),
        max_eq_left hs]
  · rfl

lemma clamp_in_mono {p q : ℝ} (h : p ≤ q) :
    max 0.001 (min 0.999 p) ≤ max 0.001 (min 0.999 q) :=
  max_le_max (le_refl _) (min_le_min (le_refl _) h)

lemma clamp_in_lb (p : ℝ) : (0.001 : ℝ) ≤ max 0.001 (min 0.999 p) :=
  le_max_left _ _

lemma clamp_in_ub (p : ℝ) : max 0.001 (min 0.999 p) ≤ (0.999 : ℝ) :=
  max_le (by norm_num) (min_le_left _ _)

/-- The log-odds map is monotone on the clamped probability range. -/
lemma logit_mono {a b : ℝ} (ha : (0.001 : ℝ) ≤ a) (hb : b ≤ (0.999 : ℝ))
    (hab : a ≤ b) :
    Real.log (a / (1.0 - a)) ≤ Real.log (b / (1.0 - b)) := by
  have ha0 : (0 : ℝ) < a := lt_of_lt_of_le (by norm_num) ha
  have hb0 : (0 : ℝ) < b := lt_of_lt_of_le ha0 hab
  have h1b : (0 : ℝ) < 1.0 - b := by nlinarith
  have h1a : (0 : ℝ) < 1.0 - a := by nlinarith
  have hx : (0 : ℝ) < a / (1.0 - a) := by positivity
  have hy : (0 : ℝ) < b / (1.0 - b) := by positivity
  refine (Real.log_le_log_iff hx hy).mpr ?_
  rw [div_le_div_iff₀ h1a h1b]
  nlinarith

/-- The logistic transform is monotone in its probability argument for any
fixed effect list (the source of the spec's order-preservation invariant). -/
lemma logistic_transform_mono (es : List ℝ) {p q : ℝ} (h : p ≤ q) :
    logistic_transform p es ≤ logistic_transform q es := by
  simp only [logistic_transform]
  rw [clamped_guard_eq_clamped_sigmoid, clamped_guard_eq_clamped_sigmoid]
  refine max_le_max (le_refl _) (min_le_min (le_refl _) (sigmoid_mono ?_))
  exact add_le_add_right
    (logit_mono (clamp_in_lb p) (clamp_in_ub q) (clamp_in_mono h)) _

/-- With an empty effect list the transform is the identity on the
pre-clamped range [0.001, 0.999]. -/
lemma logistic_transform_empty {p : ℝ} (h1 : (0.001 : ℝ) ≤ p)
    (h2 : p ≤ (0.999 : ℝ)) : logistic_transform p [] = p := by
  have hp0 : (0 : ℝ) < p := lt_of_lt_of_le (by norm_num) h1
  have hp1 : p < 1 := lt_of_le_of_lt h2 (by norm_num)
  have h1p : (0 : ℝ) < 1.0 - p := by nlinarith
  have hr : (0 : ℝ) < p / (1.0 - p) := by positivity
  have hub : Real.log (p / (1.0 - p)) ≤ 700 := by
    refine (Real.log_le_iff_le_exp hr).mpr ?_
    have h999 : p / (1.0 - p) ≤ 999 := by
      rw [div_le_iff₀ h1p]; nlinarith
    calc p / (1.0 - p) ≤ 999 := h999
      _ ≤ 1e15 := by norm_num
      _ ≤ Real.exp 700 := exp_700_large
  have hlb : (-700 : ℝ) ≤ Real.log (p / (1.0 - p)) := by
    refine (Real.le_log_iff_exp_le hr).mpr ?_
    have hpge : p ≤ p / (1.0 - p) := by
      rw [le_div_iff₀ h1p]; nlinarith
    calc Real.exp (-700) ≤ 1e-15 := exp_neg_700_small
      _ ≤ 0.001 := by norm_num
      _ ≤ p := h1
      _ ≤ p / (1.0 - p) := hpge
  simp only [logistic_transform, List.map_nil, List.sum_nil, add_zero]
  rw [min_eq_right h2, max_eq_right h1]
  rw [if_neg (by push_neg; exact hub), if_neg (by push_neg; exact hlb)]
  rw [Real.exp_neg, Real.exp_log hr]
  have hsig : 1.0 / (1.0 + (p / (1.0 - p))⁻¹) = p := by
    rw [inv_div]
    field_simp
    ring
  rw [hsig]
  unfold PROB_FLOOR PROB_CEIL
  rw [min_eq_right (by nlinarith), max_eq_right (by nlinarith)]

-- ───────────────────────── logistic-transform claims ─────────────────────────

/-- C3: for every base probability and every effect list the logistic
transform stays clamped inside [1e-15, 1 − 1e-15], hence is strictly inside
(0, 1) and never exactly 0.0 or 1.0; as a total function of its real
arguments it cannot raise, including when the summed log-odds passes ±700
(those inputs take the overflow-guard branches, which are inside the same
bounds). -/
theorem C3_transform_strictly_bounded (p : ℝ) (es : List ℝ) :
    PROB_FLOOR ≤ logistic_transform p es ∧
    logistic_transform p es ≤ PROB_CEIL ∧
    0 < logistic_transform p es ∧ logistic_transform p es < 1 := by
  have hlb : PROB_FLOOR ≤ logistic_transform p es := by
    simp only [logistic_transform]
    exact le_max_left _ _
  have hub : logistic_transform p es ≤ PROB_CEIL := by
    simp only [logistic_transform]
    exact max_le prob_floor_le_ceil (min_le_left _ _)
  exact ⟨hlb, hub, lt_of_lt_of_le prob_floor_pos hlb,
    lt_of_le_of_lt hub prob_ceil_lt_one⟩

/-- C4: the logistic transform is monotone in its probability argument, so
transforming an ordered PERT triple low ≤ likely ≤ high through one and the
same effect list preserves the order (exactly, which in particular is
"within tolerance 1e-10"). -/
theorem C4_transform_preserves_order (es : List ℝ) (lo likely hi : ℝ)
    (h1 : lo ≤ likely) (h2 : likely ≤ hi) :
    logistic_transform lo es ≤ logistic_transform likely es ∧
    logistic_transform likely es ≤ logistic_transform hi es :=
  ⟨logistic_transform_mono es h1, logistic_transform_mono es h2⟩

/-- Witness for C4 at the concrete PERT triple (0.05, 0.15, 0.30) with an
empty effect list. -/
theorem C4_transform_preserves_order_witness :
    logistic_transform 0.05 [] ≤ logistic_transform 0.15 [] ∧
    logistic_transform 0.15 [] ≤ logistic_transform 0.30 [] :=
  C4_transform_preserves_order [] 0.05 0.15 0.30 (by norm_num) (by norm_num)

/-- C7: on each probability in {0.01, 0.1, 0.25, 0.5, 0.75, 0.9, 0.99} the
transform with an empty effect list returns the input (all seven values lie
inside the [0.001, 0.999] input clamp, so the boundary clamp is the
identity too), in particular within the 1e-3 tolerance. -/
theorem C7_transform_empty_identity :
    |logistic_transform 0.01 [] - 0.01| ≤ 1e-3 ∧
    |logistic_transform 0.1 [] - 0.1| ≤ 1e-3 ∧
    |logistic_transform 0.25 [] - 0.25| ≤ 1e-3 ∧
    |logistic_transform 0.5 [] - 0.5| ≤ 1e-3 ∧
    |logistic_transform 0.75 [] - 0.75| ≤ 1e-3 ∧
    |logistic_transform 0.9 [] - 0.9| ≤ 1e-3 ∧
    |logistic_transform 0.99 [] - 0.99| ≤ 1e-3 := by
  refine ⟨?_, ?_, ?_, ?_, ?_, ?_, ?_⟩ <;>
    rw [logistic_transform_empty (by norm_num) (by norm_num)] <;> norm_num

-- ───────────────────────── effect-function lemmas ─────────────────────────

lemma value_pos (s : Sensitivity) : 0 < s.value := by
  cases s <;> norm_num [Sensitivity.value]

/-- A single factor effect is always strictly positive: the base ratio is
floored at 0.2 and a real power of a positive base is positive. -/
lemma calculate_factor_effect_pos (k : ℤ) (d : FactorDirection) (s : Sensitivity) :
    0 < calculate_factor_effect k d s := by
  cases d <;>
  · simp only [calculate_factor_effect]
    exact Real.rpow_pos_of_pos (lt_of_lt_of_le (by norm_num) (le_max_left _ _)) _

lemma rpow_lt_rpow_base {a b : ℝ} (ha : 0 ≤ a) (hab : a < b) (s : Sensitivity) :
    a ^ s.value < b ^ s.value :=
  Real.rpow_lt_rpow ha hab (value_pos s)

lemma eff_prot_1 (s : Sensitivity) :
    calculate_factor_effect 1 .PROTECTIVE s = (3 : ℝ) ^ s.value := by
  simp only [calculate_factor_effect, NEUTRAL_FACTOR]
  norm_num [max_def]

lemma eff_prot_2 (s : Sensitivity) :
    calculate_factor_effect 2 .PROTECTIVE s = ((3 : ℝ) / 2) ^ s.value := by
  simp only [calculate_factor_effect, NEUTRAL_FACTOR]
  norm_num [max_def]

lemma eff_prot_3 (s : Sensitivity) :
    calculate_factor_effect 3 .PROTECTIVE s = (1 : ℝ) ^ s.value := by
  simp only [calculate_factor_effect, NEUTRAL_FACTOR]
  norm_num [max_def]

lemma eff_prot_4 (s : Sensitivity) :
    calculate_factor_effect 4 .PROTECTIVE s = ((3 : ℝ) / 4) ^ s.value := by
  simp only [calculate_factor_effect, NEUTRAL_FACTOR]
  norm_num [max_def]

lemma eff_prot_5 (s : Sensitivity) :
    calculate_factor_effect 5 .PROTECTIVE s = ((3 : ℝ) / 5) ^ s.value := by
  simp only [calculate_factor_effect, NEUTRAL_FACTOR]
  norm_num [max_def]

lemma eff_expo_1 (s : Sensitivity) :
    calculate_factor_effect 1 .EXPOSURE s = ((1 : ℝ) / 3) ^ s.value := by
  simp only [calculate_factor_effect, NEUTRAL_FACTOR]
  norm_num [max_def]

lemma eff_expo_2 (s : Sensitivity) :
    calculate_factor_effect 2 .EXPOSURE s = ((2 : ℝ) / 3) ^ s.value := by
  simp only [calculate_factor_effect, NEUTRAL_FACTOR]
  norm_num [max_def]

lemma eff_expo_3 (s : Sensitivity) :
    calculate_factor_effect 3 .EXPOSURE s = (1 : ℝ) ^ s.value := by
  simp only [calculate_factor_effect, NEUTRAL_FACTOR]
  norm_num [max_def]

lemma eff_expo_4 (s : Sensitivity) :
    calculate_factor_effect 4 .EXPOSURE s = ((4 : ℝ) / 3) ^ s.value := by
  simp only [calculate_factor_effect, NEUTRAL_FACTOR]
  norm_num [max_def]

lemma eff_expo_5 (s : Sensitivity) :
    calculate_factor_effect 5 .EXPOSURE s = ((5 : ℝ) / 3) ^ s.value := by
  simp only [calculate_factor_effect, NEUTRAL_FACTOR]
  norm_num [max_def]

-- ───────────────────────── effect-function claims ─────────────────────────

/-- C5: at the neutral factor score 3 the deviation is 0, the base ratio is
3/3 = 1 in both directions, the 0.2 floor does not bind, and 1 to any
sensitivity exponent is exactly 1: score 3 is a true no-op for every
direction/strength combination. -/
theorem C5_neutral_score_noop (d : FactorDirection) (s : Sensitivity) :
    calculate_factor_effect 3 d s = 1 := by
  cases d
  · rw [eff_prot_3, Real.one_rpow]
  · rw [eff_expo_3, Real.one_rpow]

/-- C6: for every sensitivity strength the effect is strictly monotone in
the factor score over 1..5 — strictly decreasing for PROTECTIVE and
strictly increasing for EXPOSURE (the 0.2 floor never binds on 1..5, and a
real power with positive exponent is strictly monotone on positive bases). -/
theorem C6_effect_strictly_monotone (s : Sensitivity) :
    (calculate_factor_effect 5 .PROTECTIVE s < calculate_factor_effect 4 .PROTECTIVE s ∧
     calculate_factor_effect 4 .PROTECTIVE s < calculate_factor_effect 3 .PROTECTIVE s ∧
     calculate_factor_effect 3 .PROTECTIVE s < calculate_factor_effect 2 .PROTECTIVE s ∧
     calculate_factor_effect 2 .PROTECTIVE s < calculate_factor_effect 1 .PROTECTIVE s) ∧
    (calculate_factor_effect 1 .EXPOSURE s < calculate_factor_effect 2 .EXPOSURE s ∧
     calculate_factor_effect 2 .EXPOSURE s < calculate_factor_effect 3 .EXPOSURE s ∧
     calculate_factor_effect 3 .EXPOSURE s < calculate_factor_effect 4 .EXPOSURE s ∧
     calculate_factor_effect 4 .EXPOSURE s < calculate_factor_effect 5 .EXPOSURE s) := by
  rw [eff_prot_1, eff_prot_2, eff_prot_3, eff_prot_4, eff_prot_5,
      eff_expo_1, eff_expo_2, eff_expo_3, eff_expo_4, eff_expo_5]
  exact ⟨⟨rpow_lt_rpow_base (by norm_num) (by norm_num) s,
          rpow_lt_rpow_base (by norm_num) (by norm_num) s,
          rpow_lt_rpow_base (by norm_num) (by norm_num) s,
          rpow_lt_rpow_base (by norm_num) (by norm_num) s⟩,
         ⟨rpow_lt_rpow_base (by norm_num) (by norm_num) s,
          rpow_lt_rpow_base (by norm_num) (by norm_num) s,
          rpow_lt_rpow_base (by norm_num) (by norm_num) s,
          rpow_lt_rpow_base (by norm_num) (by norm_num) s⟩⟩

-- ───────────────────────── scenario catalog ─────────────────────────

/-- `ScenarioFactors` dataclass (structural_factors.py, data-model v6):
factor scores of one scenario.  It defines exactly the six fields F1..F6 —
factor F7 (Samningsstyrkur) was removed from the scenario model in v5.
Display-name fields are omitted. -/
structure ScenarioFactors where
  scenario_id : String
  F1 : ℤ
  F2 : ℤ
  F3 : ℤ
  F4 : ℤ
  F5 : ℤ
  F6 : ℤ
deriving DecidableEq, Repr

/-- `ScenarioFactors.get_factor`, which is `getattr(self, factor_id)` in
Python: defined for the six existing factor fields, and an uncaught
`AttributeError` — modelled as `none` — for any other name (in particular
for `"F7"`, still referenced by risk_sensitivities.py and
goal_scoring.py). -/
def ScenarioFactors.get_factor (sf : ScenarioFactors) (factor_id : String) : Option ℤ :=
  match factor_id with
  | "F1" => some sf.F1
  | "F2" => some sf.F2
  | "F3" => some sf.F3
  | "F4" => some sf.F4
  | "F5" => some sf.F5
  | "F6" => some sf.F6
  | _ => none

/-- `SCENARIO_FACTORS` (structural_factors.py, v6): the 11 scenarios. -/
def SCENARIO_FACTORS : List (String × ScenarioFactors) :=
  [("S1", ⟨"S1", 2, 2, 3, 3, 2, 5⟩),
   ("S2", ⟨"S2", 3, 3, 4, 3, 3, 4⟩),
   ("S3", ⟨"S3", 4, 5, 4, 5, 4, 3⟩),
   ("S4", ⟨"S4", 2, 3, 5, 3, 3, 1⟩),
   ("S5", ⟨"S5", 2, 4, 5, 4, 5, 1⟩),
   ("S6", ⟨"S6", 2, 5, 5, 5, 4, 1⟩),
   ("S7", ⟨"S7", 2, 4, 5, 4, 4, 1⟩),
   ("S8", ⟨"S8", 3, 2, 3, 1, 2, 1⟩),
   ("S9", ⟨"S9", 1, 4, 1, 5, 4, 1⟩),
   ("S10", ⟨"S10", 3, 4, 1, 4, 3, 1⟩),
   ("S11", ⟨"S11", 5, 1, 1, 1, 1, 1⟩)]

/-- `get_scenario_profile` (structural_factors.py): all six factor scores
of a scenario as a keyed list, or empty for an unknown id. -/
def get_scenario_profile (scenario_id : String) : List (String × ℤ) :=
  match List.lookup scenario_id SCENARIO_FACTORS with
  | none => []
  | some sf => [("F1", sf.F1), ("F2", sf.F2), ("F3", sf.F3),
                ("F4", sf.F4), ("F5", sf.F5), ("F6", sf.F6)]

-- ───────────────────────── risk catalog ─────────────────────────

/-- `FactorSensitivity` (risk_sensitivities.py); the rationale text is
omitted. -/
structure FactorSensitivity where
  factor_id : String
  direction : FactorDirection
  sensitivity : Sensitivity

/-- `RiskProfile` (risk_sensitivities.py); display names are omitted, and
the optional `requires_factors` dict becomes a (possibly empty) list of
(factor_id, inclusive min, inclusive max) gates. -/
structure RiskProfile where
  risk_id : String
  category : String
  base_prob_low : ℝ
  base_prob_likely : ℝ
  base_prob_high : ℝ
  affected_goals : List String
  sensitivities : List FactorSensitivity
  requires_factors : List (String × ℤ × ℤ)

noncomputable def R01 : RiskProfile :=
  ⟨"R01", "Skipulag og leyfi", 0.20, 0.40, 0.65, ["G1", "G2", "G4"],
   [⟨"F5", .PROTECTIVE, .MEDIUM⟩, ⟨"F6", .PROTECTIVE, .LOW⟩], []⟩

noncomputable def R02 : RiskProfile :=
  ⟨"R02", "Skipulag og leyfi", 0.10, 0.25, 0.45, ["G1", "G2", "G4", "G5", "G9"],
   [⟨"F6", .EXPOSURE, .LOW⟩], []⟩

noncomputable def R03 : RiskProfile :=
  ⟨"R03", "Skipulag og leyfi", 0.15, 0.35, 0.60, ["G2", "G3", "G5", "G10"],
   [⟨"F4", .PROTECTIVE, .LOW⟩, ⟨"F5", .PROTECTIVE, .MEDIUM⟩], []⟩

noncomputable def R04 : RiskProfile :=
  ⟨"R04", "Skipulag og leyfi", 0.30, 0.55, 0.80, ["G1", "G2", "G3", "G5", "G10"],
   [⟨"F4", .PROTECTIVE, .CRITICAL⟩, ⟨"F5", .PROTECTIVE, .MEDIUM⟩,
    ⟨"F7", .PROTECTIVE, .MEDIUM⟩], []⟩

noncomputable def R05 : RiskProfile :=
  ⟨"R05", "Skipulag og leyfi", 0.08, 0.18, 0.35, ["G1", "G2"],
   [⟨"F5", .PROTECTIVE, .LOW⟩], []⟩

noncomputable def R06 : RiskProfile :=
  ⟨"R06", "Skipulag og leyfi", 0.03, 0.10, 0.20, ["G1", "G4"], [], []⟩

noncomputable def R08 : RiskProfile :=
  ⟨"R08", "Innviðir", 0.20, 0.45, 0.70, ["G4", "G6"],
   [⟨"F5", .PROTECTIVE, .HIGH⟩, ⟨"F7", .PROTECTIVE, .MEDIUM⟩], []⟩

noncomputable def R09 : RiskProfile :=
  ⟨"R09", "Innviðir", 0.10, 0.25, 0.45, ["G4", "G6", "G7"],
   [⟨"F5", .PROTECTIVE, .HIGH⟩, ⟨"F7", .PROTECTIVE, .HIGH⟩,
    ⟨"F6", .PROTECTIVE, .LOW⟩], []⟩

noncomputable def R10 : RiskProfile :=
  ⟨"R10", "Innviðir", 0.15, 0.38, 0.60, ["G1", "G2", "G6"],
   [⟨"F5", .PROTECTIVE, .HIGH⟩, ⟨"F6", .PROTECTIVE, .MEDIUM⟩,
    ⟨"F1", .EXPOSURE, .MEDIUM⟩], []⟩

noncomputable def R11 : RiskProfile :=
  ⟨"R11", "Framkvæmdir", 0.05, 0.15, 0.30, ["G2", "G5", "G8", "G10"],
   [⟨"F2", .PROTECTIVE, .CRITICAL⟩, ⟨"F3", .PROTECTIVE, .HIGH⟩,
    ⟨"F1", .EXPOSURE, .MEDIUM⟩, ⟨"F7", .PROTECTIVE, .LOW⟩], []⟩

noncomputable def R12 : RiskProfile :=
  ⟨"R12", "Framkvæmdir", 0.20, 0.45, 0.70, ["G2", "G3", "G5", "G10"],
   [⟨"F4", .PROTECTIVE, .HIGH⟩, ⟨"F2", .PROTECTIVE, .MEDIUM⟩,
    ⟨"F5", .PROTECTIVE, .MEDIUM⟩, ⟨"F3", .PROTECTIVE, .MEDIUM⟩], []⟩

noncomputable def R13 : RiskProfile :=
  ⟨"R13", "Framkvæmdir", 0.20, 0.42, 0.68, ["G2"],
   [⟨"F2", .PROTECTIVE, .MEDIUM⟩, ⟨"F4", .PROTECTIVE, .HIGH⟩,
    ⟨"F5", .PROTECTIVE, .MEDIUM⟩, ⟨"F1", .EXPOSURE, .MEDIUM⟩], []⟩

noncomputable def R14 : RiskProfile :=
  ⟨"R14", "Framkvæmdir", 0.15, 0.35, 0.58, ["G8"],
   [⟨"F2", .PROTECTIVE, .HIGH⟩, ⟨"F5", .PROTECTIVE, .MEDIUM⟩,
    ⟨"F7", .PROTECTIVE, .MEDIUM⟩], []⟩

noncomputable def R15 : RiskProfile :=
  ⟨"R15", "Framkvæmdir", 0.15, 0.35, 0.58, ["G2", "G8"],
   [⟨"F2", .PROTECTIVE, .HIGH⟩, ⟨"F1", .EXPOSURE, .MEDIUM⟩], []⟩

noncomputable def R17 : RiskProfile :=
  ⟨"R17", "Framkvæmdir", 0.20, 0.45, 0.72, ["G1", "G2", "G7", "G8"],
   [⟨"F1", .EXPOSURE, .CRITICAL⟩, ⟨"F5", .PROTECTIVE, .HIGH⟩,
    ⟨"F4", .PROTECTIVE, .MEDIUM⟩, ⟨"F2", .PROTECTIVE, .LOW⟩], []⟩

noncomputable def R18 : RiskProfile :=
  ⟨"R18", "Markaður", 0.08, 0.22, 0.42, ["G2", "G5"],
   [⟨"F3", .PROTECTIVE, .CRITICAL⟩], []⟩

noncomputable def R19 : RiskProfile :=
  ⟨"R19", "Markaður", 0.10, 0.25, 0.45, ["G5"],
   [⟨"F3", .PROTECTIVE, .CRITICAL⟩], []⟩

noncomputable def R20 : RiskProfile :=
  ⟨"R20", "Markaður", 0.12, 0.28, 0.48, ["G2", "G3", "G5"],
   [⟨"F3", .PROTECTIVE, .CRITICAL⟩], []⟩

noncomputable def R22 : RiskProfile :=
  ⟨"R22", "Fjármögnun", 0.05, 0.15, 0.35, ["G2", "G5"],
   [⟨"F3", .PROTECTIVE, .CRITICAL⟩], []⟩

noncomputable def R23 : RiskProfile :=
  ⟨"R23", "Fjármögnun", 0.03, 0.10, 0.22, ["G2", "G5", "G9"],
   [⟨"F1", .EXPOSURE, .HIGH⟩], [("F3", 3, 5)]⟩

noncomputable def R24 : RiskProfile :=
  ⟨"R24", "Stjórnmál og samfélag", 0.10, 0.25, 0.45, ["G2", "G5", "G9", "G10"],
   [], []⟩

noncomputable def R25 : RiskProfile :=
  ⟨"R25", "Stjórnmál og samfélag", 0.05, 0.12, 0.25, ["G1", "G2"], [], []⟩

noncomputable def R26 : RiskProfile :=
  ⟨"R26", "Stjórnmál og samfélag", 0.08, 0.20, 0.38, ["G1", "G2", "G5", "G9"],
   [], []⟩

noncomputable def R27 : RiskProfile :=
  ⟨"R27", "Verkefnisstjórnun og samningar", 0.12, 0.30, 0.55,
   ["G1", "G2", "G4", "G5", "G9"],
   [⟨"F1", .EXPOSURE, .CRITICAL⟩, ⟨"F5", .PROTECTIVE, .HIGH⟩,
    ⟨"F7", .PROTECTIVE, .MEDIUM⟩], []⟩

noncomputable def R29 : RiskProfile :=
  ⟨"R29", "Framkvæmdir", 0.15, 0.35, 0.55, ["G4", "G7", "G8"],
   [⟨"F7", .PROTECTIVE, .HIGH⟩, ⟨"F2", .PROTECTIVE, .MEDIUM⟩], []⟩

noncomputable def R30 : RiskProfile :=
  ⟨"R30", "Verkefnisstjórnun og samningar", 0.15, 0.30, 0.50,
   ["G3", "G4", "G9", "G10"],
   [⟨"F7", .PROTECTIVE, .CRITICAL⟩, ⟨"F5", .PROTECTIVE, .HIGH⟩,
    ⟨"F6", .PROTECTIVE, .HIGH⟩], []⟩

noncomputable def R31 : RiskProfile :=
  ⟨"R31", "Verkefnisstjórnun og samningar", 0.10, 0.25, 0.45,
   ["G1", "G2", "G4", "G5"],
   [⟨"F5", .PROTECTIVE, .HIGH⟩, ⟨"F1", .EXPOSURE, .MEDIUM⟩,
    ⟨"F4", .PROTECTIVE, .MEDIUM⟩], []⟩

noncomputable def R32 : RiskProfile :=
  ⟨"R32", "Stjórnmál og samfélag", 0.12, 0.28, 0.48, ["G5", "G7", "G9"],
   [⟨"F6", .EXPOSURE, .MEDIUM⟩, ⟨"F5", .PROTECTIVE, .HIGH⟩], []⟩

noncomputable def R33 : RiskProfile :=
  ⟨"R33", "Stjórnmál og samfélag", 0.15, 0.35, 0.58, ["G10"],
   [⟨"F7", .PROTECTIVE, .CRITICAL⟩, ⟨"F6", .PROTECTIVE, .MEDIUM⟩], []⟩

noncomputable def R34 : RiskProfile :=
  ⟨"R34", "Fjármögnun", 0.40, 0.65, 0.85, ["G2", "G4", "G9"],
   [⟨"F5", .PROTECTIVE, .HIGH⟩, ⟨"F7", .PROTECTIVE, .MEDIUM⟩],
   [("F6", 3, 4)]⟩

noncomputable def R35 : RiskProfile :=
  ⟨"R35", "Skipulag og leyfi", 0.35, 0.55, 0.80, ["G1", "G2", "G5"],
   [⟨"F6", .EXPOSURE, .HIGH⟩, ⟨"F5", .PROTECTIVE, .MEDIUM⟩],
   [("F6", 3, 5)]⟩

noncomputable def R36 : RiskProfile :=
  ⟨"R36", "Verkefnisstjórnun og samningar", 0.08, 0.20, 0.40,
   ["G2", "G4", "G5", "G9"],
   [⟨"F1", .EXPOSURE, .HIGH⟩, ⟨"F7", .PROTECTIVE, .HIGH⟩,
    ⟨"F5", .PROTECTIVE, .MEDIUM⟩], []⟩

noncomputable def R37 : RiskProfile :=
  ⟨"R37", "Stjórnmál og samfélag", 0.20, 0.40, 0.65, ["G1", "G2", "G5", "G9"],
   [⟨"F6", .EXPOSURE, .HIGH⟩, ⟨"F7", .PROTECTIVE, .MEDIUM⟩,
    ⟨"F5", .PROTECTIVE, .LOW⟩], [("F6", 3, 5)]⟩

/-- `RISK_PROFILES` (risk_sensitivities.py): the 33 risks of the v5 model,
in dict insertion order.  R07, R16, R21 and R28 were merged away or
removed. -/
noncomputable def RISK_PROFILES : List (String × RiskProfile) :=
  [("R01", R01), ("R02", R02), ("R03", R03), ("R04", R04), ("R05", R05),
   ("R06", R06), ("R08", R08), ("R09", R09), ("R10", R10), ("R11", R11),
   ("R12", R12), ("R13", R13), ("R14", R14), ("R15", R15), ("R17", R17),
   ("R18", R18), ("R19", R19), ("R20", R20), ("R22", R22), ("R23", R23),
   ("R24", R24), ("R25", R25), ("R26", R26), ("R27", R27), ("R29", R29),
   ("R30", R30), ("R31", R31), ("R32", R32), ("R33", R33), ("R34", R34),
   ("R35", R35), ("R36", R36), ("R37", R37)]

-- ───────────────────────── probability engine ─────────────────────────

/-- The applicability-gate loop of `calculate_adjusted_probability`
(risk_calculator.py lines 200-207): `some none` means every gate passed,
`some (some fid)` means the gate on `fid` failed (Python returns the
(0,0,0) result with `fid` as marker), `none` is an uncaught
`AttributeError` from `get_factor`. -/
def gate_check (sf : ScenarioFactors) : List (String × ℤ × ℤ) → Option (Option String)
  | [] => some none
  | (factor_id, min_val, max_val) :: rest =>
    match sf.get_factor factor_id with
    | none => none
    | some factor_score =>
      if min_val ≤ factor_score ∧ factor_score ≤ max_val then gate_check sf rest
      else some (some factor_id)

/-- The effect-collection loop of `calculate_adjusted_probability`
(risk_calculator.py lines 209-229): one effect per declared sensitivity,
plus the (factor_id, effect) breakdown; `none` is an uncaught
`AttributeError` from `get_factor` (reachable exactly when a sensitivity
names `"F7"`). -/
noncomputable def collect_effects (sf : ScenarioFactors) :
    List FactorSensitivity → Option (List ℝ × List (String × ℝ))
  | [] => some ([], [])
  | sens :: rest =>
    match sf.get_factor sens.factor_id with
    | none => none
    | some factor_score =>
      let effect := calculate_factor_effect factor_score sens.direction sens.sensitivity
      match collect_effects sf rest with
      | none => none
      | some (effects, breakdown) =>
        some (effect :: effects, (sens.factor_id, effect) :: breakdown)

/-- `calculate_adjusted_probability` (risk_calculator.py lines 184-243):
unknown risk or scenario ids return the neutral ((0,0,0), 1, []) value; a
failing gate returns ((0,0,0), 0, marker); otherwise the three base
probabilities go through the logistic transform with the collected effects
and the display modifier is the raw product of the effects.  `none` is an
uncaught `AttributeError`. -/
noncomputable def calculate_adjusted_probability (scenario_id risk_id : String) :
    Option ((ℝ × ℝ × ℝ) × ℝ × List (String × ℝ)) :=
  match List.lookup risk_id RISK_PROFILES with
  | none => some ((0, 0, 0), 1, [])
  | some rp =>
    match List.lookup scenario_id SCENARIO_FACTORS with
    | none => some ((0, 0, 0), 1, [])
    | some sf =>
      match gate_check sf rp.requires_factors with
      | none => none
      | some (some factor_id) => some ((0, 0, 0), 0, [(factor_id, 0)])
      | some none =>
        match collect_effects sf rp.sensitivities with
        | none => none
        | some (effects, breakdown) =>
          some ((logistic_transform rp.base_prob_low effects,
                 logistic_transform rp.base_prob_likely effects,
                 logistic_transform rp.base_prob_high effects),
                effects.foldl (· * ·) 1.0, breakdown)

-- ───────────────────────── scenario risk profile ─────────────────────────

/-- `ScenarioRiskResult` (risk_calculator.py); display names omitted. -/
structure ScenarioRiskResult where
  risk_id : String
  category : String
  prob_low : ℝ
  prob_likely : ℝ
  prob_high : ℝ
  modifier : ℝ
  affected_goals : List String
  breakdown : List (String × ℝ)

/-- `ScenarioRiskResult.prob_pert_mean` property. -/
noncomputable def ScenarioRiskResult.prob_pert_mean (r : ScenarioRiskResult) : ℝ :=
  (r.prob_low + 4 * r.prob_likely + r.prob_high) / 6

/-- `ScenarioRiskProfile` (risk_calculator.py); display names omitted. -/
structure ScenarioRiskProfile where
  scenario_id : String
  factor_scores : List (String × ℤ)
  risks : List ScenarioRiskResult

/-- The risk loop of `calculate_scenario_risk_profile` (risk_calculator.py
lines 301-318): every risk gets an adjusted probability, risks whose
display modifier is exactly 0 (the gated-out ones) are skipped, the rest
are appended in catalog order.  `none` is an uncaught exception from
`calculate_adjusted_probability`. -/
noncomputable def risk_loop (scenario_id : String) :
    List (String × RiskProfile) → List ScenarioRiskResult →
    Option (List ScenarioRiskResult)
  | [], acc => some acc
  | (risk_id, rp) :: rest, acc =>
    match calculate_adjusted_probability scenario_id risk_id with
    | none => none
    | some (probs, modifier, breakdown) =>
      if modifier = 0 then risk_loop scenario_id rest acc
      else risk_loop scenario_id rest
        (acc ++ [⟨risk_id, rp.category, probs.1, probs.2.1, probs.2.2, modifier,
                  rp.affected_goals, breakdown⟩])

/-- `calculate_scenario_risk_profile` (risk_calculator.py lines 293-326):
`some none` is Python's `None` for an unknown scenario id; `none` is an
uncaught exception from the risk loop. -/
noncomputable def calculate_scenario_risk_profile (scenario_id : String) :
    Option (Option ScenarioRiskProfile) :=
  match List.lookup scenario_id SCENARIO_FACTORS with
  | none => some none
  | some _ =>
    match risk_loop scenario_id RISK_PROFILES [] with
    | none => none
    | some results =>
      some (some ⟨scenario_id, get_scenario_profile scenario_id, results⟩)

-- ───────────────────────── goal catalog ─────────────────────────

/-- `ImpactUnit` enum (goal_impacts.py). -/
inductive ImpactUnit where
  | MONTHS
  | MISK
  | PCT_POINTS
  | SCORE_POINTS
deriving DecidableEq, Repr

/-- The string `.value` of the `ImpactUnit` enum. -/
def ImpactUnit.value : ImpactUnit → String
  | .MONTHS => "months"
  | .MISK => "misk"
  | .PCT_POINTS => "pct_points"
  | .SCORE_POINTS => "score"

/-- `GoalDefinition` (goal_impacts.py); display names and description
omitted. -/
structure GoalDefinition where
  goal_id : String
  unit : ImpactUnit
  baseline : ℝ
  direction : String

/-- `GOALS` (goal_impacts.py): the ten city goals. -/
noncomputable def GOALS : List (String × GoalDefinition) :=
  [("G1", ⟨"G1", .MONTHS, 36.0, "lower_better"⟩),
   ("G2", ⟨"G2", .MONTHS, 60.0, "lower_better"⟩),
   ("G3", ⟨"G3", .PCT_POINTS, 0.0, "lower_better"⟩),
   ("G4", ⟨"G4", .MISK, 0.0, "lower_better"⟩),
   ("G5", ⟨"G5", .PCT_POINTS, 100.0, "higher_better"⟩),
   ("G6", ⟨"G6", .PCT_POINTS, 100.0, "higher_better"⟩),
   ("G7", ⟨"G7", .SCORE_POINTS, 100.0, "higher_better"⟩),
   ("G8", ⟨"G8", .SCORE_POINTS, 100.0, "higher_better"⟩),
   ("G9", ⟨"G9", .SCORE_POINTS, 100.0, "higher_better"⟩),
   ("G10", ⟨"G10", .PCT_POINTS, 30.0, "higher_better"⟩)]

/-- `RiskGoalImpact` (goal_impacts.py); rationale text omitted. -/
structure RiskGoalImpact where
  risk_id : String
  goal_id : String
  impact_low : ℝ
  impact_likely : ℝ
  impact_high : ℝ

/-- `RISK_GOAL_IMPACTS` (goal_impacts.py, v5): per-risk lists of per-goal
three-point impacts, in dict insertion order. -/
noncomputable def RISK_GOAL_IMPACTS : List (String × List RiskGoalImpact) :=
  [("R01", [⟨"R01", "G1", 3, 6, 12⟩, ⟨"R01", "G2", 3, 6, 12⟩,
            ⟨"R01", "G4", 50, 150, 400⟩]),
   ("R02", [⟨"R02", "G1", 6, 12, 24⟩, ⟨"R02", "G2", 6, 12, 24⟩,
            ⟨"R02", "G4", 100, 300, 800⟩, ⟨"R02", "G5", -5, -15, -40⟩,
            ⟨"R02", "G9", -5, -10, -20⟩]),
   ("R03", [⟨"R03", "G2", 6, 12, 24⟩, ⟨"R03", "G3", 5, 12, 25⟩,
            ⟨"R03", "G5", -5, -15, -30⟩, ⟨"R03", "G10", -5, -10, -20⟩]),
   ("R04", [⟨"R04", "G1", 3, 8, 18⟩, ⟨"R04", "G2", 4, 10, 24⟩,
            ⟨"R04", "G3", 3, 8, 15⟩, ⟨"R04", "G5", -3, -10, -25⟩,
            ⟨"R04", "G10", -3, -8, -15⟩]),
   ("R05", [⟨"R05", "G1", 2, 4, 9⟩, ⟨"R05", "G2", 2, 4, 9⟩]),
   ("R06", [⟨"R06", "G1", 2, 6, 18⟩, ⟨"R06", "G4", 50, 200, 800⟩]),
   ("R08", [⟨"R08", "G4", 500, 2000, 6000⟩, ⟨"R08", "G6", -15, -35, -60⟩]),
   ("R09", [⟨"R09", "G4", 200, 600, 2000⟩, ⟨"R09", "G6", -5, -10, -20⟩,
            ⟨"R09", "G7", -10, -25, -45⟩]),
   ("R10", [⟨"R10", "G1", 4, 10, 24⟩, ⟨"R10", "G2", 4, 10, 24⟩,
            ⟨"R10", "G6", -10, -15, -25⟩]),
   ("R11", [⟨"R11", "G2", 12, 24, 48⟩, ⟨"R11", "G5", -15, -35, -70⟩,
            ⟨"R11", "G8", -10, -20, -35⟩, ⟨"R11", "G10", -10, -20, -30⟩]),
   ("R12", [⟨"R12", "G2", 3, 8, 18⟩, ⟨"R12", "G3", 5, 12, 25⟩,
            ⟨"R12", "G5", -5, -15, -35⟩, ⟨"R12", "G10", -5, -12, -25⟩]),
   ("R13", [⟨"R13", "G2", 6, 12, 30⟩]),
   ("R14", [⟨"R14", "G8", -10, -25, -45⟩]),
   ("R15", [⟨"R15", "G2", 4, 10, 20⟩, ⟨"R15", "G8", -5, -12, -25⟩]),
   ("R17", [⟨"R17", "G1", 3, 8, 18⟩, ⟨"R17", "G2", 4, 10, 24⟩,
            ⟨"R17", "G7", -5, -12, -25⟩, ⟨"R17", "G8", -5, -12, -25⟩]),
   ("R18", [⟨"R18", "G2", 12, 24, 48⟩, ⟨"R18", "G5", -10, -25, -50⟩]),
   ("R19", [⟨"R19", "G5", -10, -25, -50⟩]),
   ("R20", [⟨"R20", "G2", 6, 12, 30⟩, ⟨"R20", "G3", 5, 12, 25⟩,
            ⟨"R20", "G5", -8, -20, -45⟩]),
   ("R22", [⟨"R22", "G2", 12, 24, 48⟩, ⟨"R22", "G5", -15, -35, -60⟩]),
   ("R23", [⟨"R23", "G2", 12, 24, 36⟩, ⟨"R23", "G5", -10, -25, -45⟩,
            ⟨"R23", "G9", -10, -20, -35⟩]),
   ("R24", [⟨"R24", "G2", 6, 12, 24⟩, ⟨"R24", "G5", -5, -15, -35⟩,
            ⟨"R24", "G9", -10, -25, -45⟩, ⟨"R24", "G10", -5, -15, -30⟩]),
   ("R25", [⟨"R25", "G1", 2, 6, 15⟩, ⟨"R25", "G2", 2, 6, 15⟩]),
   ("R26", [⟨"R26", "G1", 3, 8, 18⟩, ⟨"R26", "G2", 3, 8, 18⟩,
            ⟨"R26", "G5", -3, -10, -25⟩, ⟨"R26", "G9", -5, -15, -30⟩]),
   ("R27", [⟨"R27", "G1", 4, 10, 24⟩, ⟨"R27", "G2", 6, 15, 36⟩,
            ⟨"R27", "G4", 100, 400, 1200⟩, ⟨"R27", "G5", -5, -15, -35⟩,
            ⟨"R27", "G9", -10, -25, -45⟩]),
   ("R29", [⟨"R29", "G4", 100, 400, 1500⟩, ⟨"R29", "G7", -5, -15, -30⟩,
            ⟨"R29", "G8", -5, -15, -30⟩]),
   ("R30", [⟨"R30", "G3", 5, 15, 30⟩, ⟨"R30", "G4", 200, 800, 2000⟩,
            ⟨"R30", "G9", -10, -25, -45⟩, ⟨"R30", "G10", -5, -15, -30⟩]),
   ("R31", [⟨"R31", "G1", 4, 10, 24⟩, ⟨"R31", "G2", 6, 15, 36⟩,
            ⟨"R31", "G4", 200, 800, 3000⟩, ⟨"R31", "G5", -5, -15, -40⟩]),
   ("R32", [⟨"R32", "G5", -3, -10, -20⟩, ⟨"R32", "G7", -5, -12, -25⟩,
            ⟨"R32", "G9", -5, -15, -30⟩]),
   ("R33", [⟨"R33", "G10", -5, -15, -30⟩]),
   ("R34", [⟨"R34", "G2", 2, 6, 14⟩, ⟨"R34", "G4", 200, 600, 1500⟩,
            ⟨"R34", "G9", -5, -10, -20⟩]),
   ("R35", [⟨"R35", "G1", 2, 6, 12⟩, ⟨"R35", "G2", 3, 8, 18⟩,
            ⟨"R35", "G5", -3, -8, -15⟩]),
   ("R36", [⟨"R36", "G2", 3, 8, 18⟩, ⟨"R36", "G4", 100, 400, 1200⟩,
            ⟨"R36", "G5", -5, -12, -25⟩, ⟨"R36", "G9", -5, -15, -30⟩]),
   ("R37", [⟨"R37", "G1", 2, 5, 12⟩, ⟨"R37", "G2", 2, 5, 12⟩,
            ⟨"R37", "G5", -3, -8, -18⟩, ⟨"R37", "G9", -5, -15, -30⟩])]

/-- `pert_mean` (goal_impacts.py). -/
noncomputable def pert_mean (low likely high : ℝ) : ℝ :=
  (low + 4 * likely + high) / 6

-- ───────────────────────── goal scoring ─────────────────────────

/-- `GoalRiskContribution` (goal_scoring.py); the display risk name is
omitted. -/
structure GoalRiskContribution where
  risk_id : String
  probability : ℝ
  impact_if_occurs : ℝ
  expected_impact : ℝ
  unit : String

/-- `GoalScore` (goal_scoring.py); display names omitted. -/
structure GoalScore where
  goal_id : String
  unit : String
  baseline : ℝ
  expected_impact : ℝ
  expected_value : ℝ
  risk_contributions : List GoalRiskContribution

/-- `ScenarioGoalProfile` (goal_scoring.py); display names omitted. -/
structure ScenarioGoalProfile where
  scenario_id : String
  goal_scores : List (String × GoalScore)

/-- The contribution double loop of `calculate_scenario_goal_profile`
(goal_scoring.py lines 102-129): for one goal, iterate the impact catalog,
skip impacts of other goals and risks with probability 0 or absent from
the risk-probability dict, and accumulate the contribution list and the
total expected impact. -/
noncomputable def goal_contribs (risk_probs : List (String × ℝ))
    (goal_id unit_value : String) : List GoalRiskContribution × ℝ :=
  RISK_GOAL_IMPACTS.foldl
    (fun acc entry =>
      entry.2.foldl
        (fun acc2 impact =>
          if impact.goal_id ≠ goal_id then acc2
          else
            let prob := (List.lookup entry.1 risk_probs).getD 0.0
            if prob = 0 then acc2
            else
              let impact_mean :=
                pert_mean impact.impact_low impact.impact_likely impact.impact_high
              let expected := prob * impact_mean
              (acc2.1 ++ [⟨entry.1, prob, impact_mean, expected, unit_value⟩],
               acc2.2 + expected))
        acc)
    ([], 0.0)

/-- The baseline computation of `calculate_scenario_goal_profile`
(goal_scoring.py lines 141-148).  For goal G9 with a known scenario the
source evaluates `40.0 + 8.0 * (scenario.F6 - 1) + 7.0 * (scenario.F7 - 1)`;
the attribute access `scenario.F7` is modelled through `get_factor`, which
returns `none` (AttributeError) because the v6 `ScenarioFactors` dataclass
has no field `F7`. -/
noncomputable def goal_baseline (scenario_id goal_id : String)
    (goal_def : GoalDefinition) : Option ℝ :=
  if goal_id = "G9" then
    match List.lookup scenario_id SCENARIO_FACTORS with
    | some sf =>
      match sf.get_factor "F7" with
      | some f7 => some (40.0 + 8.0 * ((sf.F6 : ℝ) - 1) + 7.0 * ((f7 : ℝ) - 1))
      | none => none
    | none => some goal_def.baseline
  else some goal_def.baseline

/-- The per-goal loop of `calculate_scenario_goal_profile` (goal_scoring.py
lines 101-161), with `expected_value = baseline + total_impact`.  `none` is
an uncaught exception from the G9 baseline. -/
noncomputable def goal_scores_loop (scenario_id : String)
    (risk_probs : List (String × ℝ)) :
    List (String × GoalDefinition) → Option (List (String × GoalScore))
  | [] => some []
  | (goal_id, goal_def) :: rest =>
    let pair := goal_contribs risk_probs goal_id goal_def.unit.value
    match goal_baseline scenario_id goal_id goal_def with
    | none => none
    | some baseline =>
      match goal_scores_loop scenario_id risk_probs rest with
      | none => none
      | some tail =>
        some ((goal_id, ⟨goal_id, goal_def.unit.value, baseline, pair.2,
                         baseline + pair.2, pair.1⟩) :: tail)

/-- `calculate_scenario_goal_profile` (goal_scoring.py lines 83-169):
risk probabilities are the PERT means of the scenario's risk profile;
`some none` is Python's `None` for an unknown scenario; `none` is an
uncaught exception (from the risk profile or from the G9 baseline). -/
noncomputable def calculate_scenario_goal_profile (scenario_id : String) :
    Option (Option ScenarioGoalProfile) :=
  match calculate_scenario_risk_profile scenario_id with
  | none => none
  | some none => some none
  | some (some risk_profile) =>
    let risk_probs := risk_profile.risks.map (fun r => (r.risk_id, r.prob_pert_mean))
    match goal_scores_loop scenario_id risk_probs GOALS with
    | none => none
    | some scores => some (some ⟨scenario_id, scores⟩)

/-- `WeightedScenarioScore` (goal_scoring.py); display name omitted, `rank`
initialised to 0 as in the dataclass default. -/
structure WeightedScenarioScore where
  scenario_id : String
  total_score : ℝ
  goal_contributions : List (String × ℝ)
  rank : ℤ

/-- `NORMALIZERS` (goal_scoring.py lines 190-201). -/
noncomputable def NORMALIZERS : List (String × ℝ) :=
  [("G1", 0.023171), ("G2", 0.006498), ("G3", 0.022491), ("G4", 0.000225),
   ("G5", -0.005898), ("G6", -0.025075), ("G7", -0.023433),
   ("G8", -0.014442), ("G9", -0.009893), ("G10", -0.015430)]

/-- `calculate_weighted_score` (goal_scoring.py lines 172-237): per
weighted goal, take the expected impact, for G9 add the baseline penalty
`baseline - 100.0` (the maximum possible baseline), multiply by the
normalizer (when `normalize`) and the weight after taking the absolute
value, and sum.  Python's `normalize` keyword defaults to `True`; here it
is an explicit argument.  `some none` is Python's `None` for an unknown
scenario; `none` is an uncaught exception from the goal profile. -/
noncomputable def calculate_weighted_score (scenario_id : String)
    (weights : List (String × ℝ)) (normalize : Bool) :
    Option (Option WeightedScenarioScore) :=
  match calculate_scenario_goal_profile scenario_id with
  | none => none
  | some none => some none
  | some (some profile) =>
    let pair := weights.foldl
      (fun acc wpair =>
        match List.lookup wpair.1 profile.goal_scores with
        | none => acc
        | some goal_score =>
          let impact := goal_score.expected_impact
          let impact :=
            if wpair.1 = "G9" then impact + (goal_score.baseline - 100.0)
            else impact
          let normalized_impact :=
            if normalize then impact * ((List.lookup wpair.1 NORMALIZERS).getD 1.0)
            else impact
          let weighted_contribution := |normalized_impact| * wpair.2
          (acc.1 + weighted_contribution, acc.2 ++ [(wpair.1, weighted_contribution)]))
      ((0.0 : ℝ), ([] : List (String × ℝ)))
    some (some ⟨scenario_id, pair.1, pair.2, 0⟩)

-- ───────────────────────── app.py display ranking ─────────────────────────

/-- `SCENARIO_IDS` (app.py line 42): the scenario ids sorted by numeric
suffix; the catalog's insertion order S1..S11 already is that order. -/
def SCENARIO_IDS : List String := SCENARIO_FACTORS.map (·.1)

/-- `GOAL_IDS` (app.py line 43). -/
noncomputable def GOAL_IDS : List String := GOALS.map (·.1)

/-- One scenario row of step 1 of `compute_goal_rankings` (app.py lines
239-244): `profile.goal_scores[gid]` for every goal id; `none` models the
`KeyError` on a missing goal id. -/
noncomputable def goals_raw (profile : ScenarioGoalProfile) :
    List String → Option (List (String × ℝ))
  | [] => some []
  | goal_id :: rest =>
    match List.lookup goal_id profile.goal_scores with
    | none => none
    | some gs =>
      match goals_raw profile rest with
      | none => none
      | some tail => some ((goal_id, gs.expected_value) :: tail)

/-- Step 1 of `compute_goal_rankings` (app.py lines 239-244): raw expected
values for every (scenario, goal) pair.  `none` is an uncaught exception:
either `calculate_scenario_goal_profile` raised, or it returned `None` and
`profile.goal_scores` raised `AttributeError`. -/
noncomputable def rankings_raw :
    List String → Option (List ((String × String) × ℝ))
  | [] => some []
  | scenario_id :: rest =>
    match calculate_scenario_goal_profile scenario_id with
    | none => none
    | some none => none
    | some (some profile) =>
      match goals_raw profile GOAL_IDS with
      | none => none
      | some entries =>
        match rankings_raw rest with
        | none => none
        | some tail =>
          some ((entries.map (fun e => ((scenario_id, e.1), e.2))) ++ tail)

/-- Stable insertion of one (scenario, value) pair into an ascending list
(model of Python's stable `list.sort(key=λx: x[1])`). -/
noncomputable def insert_asc (x : String × ℝ) :
    List (String × ℝ) → List (String × ℝ)
  | [] => [x]
  | y :: ys => if x.2 < y.2 then x :: y :: ys else y :: insert_asc x ys

/-- Stable insertion for the descending sort
(`sort(key=λx: x[1], reverse=True)`). -/
noncomputable def insert_desc (x : String × ℝ) :
    List (String × ℝ) → List (String × ℝ)
  | [] => [x]
  | y :: ys => if y.2 < x.2 then x :: y :: ys else y :: insert_desc x ys

noncomputable def sort_asc (l : List (String × ℝ)) : List (String × ℝ) :=
  l.foldr insert_asc []

noncomputable def sort_desc (l : List (String × ℝ)) : List (String × ℝ) :=
  l.foldr insert_desc []

/-- Step 2 of `compute_goal_rankings` for one goal (app.py lines 247-255):
look up the goal, collect each scenario's raw value (`raw[(sid, gid)]`,
with `none` for a `KeyError`), sort best-first by the goal's direction, and
assign `12 - rank_0` to each position — the hard-coded 12 of the source. -/
noncomputable def rank_one_goal (raw : List ((String × String) × ℝ))
    (goal_id : String) : Option (List ((String × String) × ℤ)) :=
  match List.lookup goal_id GOALS with
  | none => none
  | some goal =>
    match (SCENARIO_IDS.foldr
      (fun scenario_id acc =>
        match acc with
        | none => none
        | some tail =>
          match List.lookup (scenario_id, goal_id) raw with
          | none => none
          | some v => some ((scenario_id, v) :: tail))
      (some [])) with
    | none => none
    | some vals =>
      let sorted :=
        if goal.direction = "higher_better" then sort_desc vals
        else sort_asc vals
      some ((sorted.enum.map
        (fun e => ((e.2.1, goal_id), (12 : ℤ) - (e.1 : ℤ)))))

/-- `compute_goal_rankings` (app.py lines 233-257): the cross-scenario
display ranking over all scenarios and goals.  `none` is an uncaught
exception. -/
noncomputable def compute_goal_rankings :
    Option (List ((String × String) × ℤ)) :=
  match rankings_raw SCENARIO_IDS with
  | none => none
  | some raw =>
    GOAL_IDS.foldl
      (fun acc goal_id =>
        match acc with
        | none => none
        | some l =>
          match rank_one_goal raw goal_id with
          | none => none
          | some r => some (l ++ r))
      (some [])

-- ───────────────────────── stale-F7 crash lemmas ─────────────────────────

lemma lookup_R04 : List.lookup "R04" RISK_PROFILES = some R04 := by
  simp [RISK_PROFILES, List.lookup]

lemma lookup_R23 : List.lookup "R23" RISK_PROFILES = some R23 := by
  simp [RISK_PROFILES, List.lookup]

lemma lookup_R34 : List.lookup "R34" RISK_PROFILES = some R34 := by
  simp [RISK_PROFILES, List.lookup]

/-- For every known scenario, `calculate_adjusted_probability` raises on
risk R04: R04 has no gate, and its third sensitivity names factor "F7",
which `ScenarioFactors.get_factor` cannot resolve. -/
lemma adj_R04_none (scenario_id : String)
    (h : (List.lookup scenario_id SCENARIO_FACTORS).isSome = true) :
    calculate_adjusted_probability scenario_id "R04" = none := by
  obtain ⟨sf, hsf⟩ := Option.isSome_iff_exists.mp h
  unfold calculate_adjusted_probability
  rw [lookup_R04, hsf]
  simp [R04, gate_check, collect_effects, ScenarioFactors.get_factor]

/-- If any risk in the remaining catalog raises, the whole risk loop
raises, whatever was accumulated so far. -/
lemma risk_loop_none (scenario_id : String) (l : List (String × RiskProfile))
    (hex : ∃ p ∈ l, calculate_adjusted_probability scenario_id p.1 = none) :
    ∀ acc, risk_loop scenario_id l acc = none := by
  induction l with
  | nil =>
    obtain ⟨p, hp, _⟩ := hex
    exact absurd hp (List.not_mem_nil p)
  | cons hd tl ih =>
    intro acc
    obtain ⟨p, hp, hnone⟩ := hex
    obtain ⟨rid, rp⟩ := hd
    rcases List.mem_cons.mp hp with heq | hmem
    · have : calculate_adjusted_probability scenario_id rid = none := by
        rw [heq] at hnone
        exact hnone
      simp [risk_loop, this]
    · cases hadj : calculate_adjusted_probability scenario_id rid with
      | none => simp [risk_loop, hadj]
      | some v =>
        obtain ⟨probs, modifier, bd⟩ := v
        simp only [risk_loop, hadj]
        split
        · exact ih ⟨p, hmem, hnone⟩ _
        · exact ih ⟨p, hmem, hnone⟩ _

/-- `calculate_scenario_risk_profile` raises for every known scenario id:
its loop reaches R04 and R04's "F7" sensitivity raises. -/
lemma risk_profile_none (scenario_id : String)
    (h : (List.lookup scenario_id SCENARIO_FACTORS).isSome = true) :
    calculate_scenario_risk_profile scenario_id = none := by
  obtain ⟨sf, hsf⟩ := Option.isSome_iff_exists.mp h
  unfold calculate_scenario_risk_profile
  rw [hsf]
  have hmem : ("R04", R04) ∈ RISK_PROFILES := by
    simp [RISK_PROFILES]
  rw [risk_loop_none scenario_id RISK_PROFILES ⟨("R04", R04), hmem, adj_R04_none scenario_id h⟩ []]

/-- `calculate_scenario_goal_profile` raises for every known scenario id
(the exception from the risk profile propagates). -/
lemma goal_profile_none (scenario_id : String)
    (h : (List.lookup scenario_id SCENARIO_FACTORS).isSome = true) :
    calculate_scenario_goal_profile scenario_id = none := by
  unfold calculate_scenario_goal_profile
  rw [risk_profile_none scenario_id h]

/-- `calculate_weighted_score` raises for every known scenario id, every
weight map and either normalize flag. -/
lemma weighted_score_none (scenario_id : String)
    (h : (List.lookup scenario_id SCENARIO_FACTORS).isSome = true)
    (weights : List (String × ℝ)) (normalize : Bool) :
    calculate_weighted_score scenario_id weights normalize = none := by
  unfold calculate_weighted_score
  rw [goal_profile_none scenario_id h]

-- ───────────────────────── pipeline claims ─────────────────────────

/-- C1: refuted as stated — for every known scenario id the Goal
Aggregator does not derive a G9 baseline at all: `calculate_scenario_goal_profile`
raises an uncaught `AttributeError` (modelled `none`).  Its risk-profile
stage reads factor "F7" for risk R04, and the G9 branch itself reads
`scenario.F7` (goal_scoring.py line 144), but the v6 `ScenarioFactors`
dataclass defines only F1..F6 — the formula
`40 + 8*(F6-1) + 7*(F7-1)` references a factor removed from the scenario
model in v5. -/
theorem C1_goal_profile_raises_for_every_scenario :
    calculate_scenario_goal_profile "S1" = none ∧
    calculate_scenario_goal_profile "S2" = none ∧
    calculate_scenario_goal_profile "S3" = none ∧
    calculate_scenario_goal_profile "S4" = none ∧
    calculate_scenario_goal_profile "S5" = none ∧
    calculate_scenario_goal_profile "S6" = none ∧
    calculate_scenario_goal_profile "S7" = none ∧
    calculate_scenario_goal_profile "S8" = none ∧
    calculate_scenario_goal_profile "S9" = none ∧
    calculate_scenario_goal_profile "S10" = none ∧
    calculate_scenario_goal_profile "S11" = none :=
  ⟨goal_profile_none "S1" (by decide), goal_profile_none "S2" (by decide),
   goal_profile_none "S3" (by decide), goal_profile_none "S4" (by decide),
   goal_profile_none "S5" (by decide), goal_profile_none "S6" (by decide),
   goal_profile_none "S7" (by decide), goal_profile_none "S8" (by decide),
   goal_profile_none "S9" (by decide), goal_profile_none "S10" (by decide),
   goal_profile_none "S11" (by decide)⟩

/-- C2: the first half of the claim holds — a failing `requires_factors`
gate does yield the hard-zero ((0,0,0), modifier 0, non-applicability
marker), shown here for R23 (gate F3 ∈ [3,5]) against S9 (F3 = 1) and for
R34 (gate F6 ∈ [3,4]) against S1 (F6 = 5) — but the second half fails on
the code: the scenario's risk profile and the goals' contribution lists
are never produced, because `calculate_scenario_risk_profile` raises on
R04's stale "F7" sensitivity before finishing, so there is no profile from
which the gated-out risk could be excluded. -/
theorem C2_hard_zero_but_profile_raises :
    calculate_adjusted_probability "S9" "R23" = some ((0, 0, 0), 0, [("F3", 0)]) ∧
    calculate_adjusted_probability "S1" "R34" = some ((0, 0, 0), 0, [("F6", 0)]) ∧
    calculate_scenario_risk_profile "S9" = none := by
  refine ⟨?_, ?_, risk_profile_none "S9" (by decide)⟩
  · unfold calculate_adjusted_probability
    rw [lookup_R23, show List.lookup "S9" SCENARIO_FACTORS =
        some ⟨"S9", 1, 4, 1, 5, 4, 1⟩ by decide]
    simp [R23, gate_check, ScenarioFactors.get_factor]
  · unfold calculate_adjusted_probability
    rw [lookup_R34, show List.lookup "S1" SCENARIO_FACTORS =
        some ⟨"S1", 2, 2, 3, 3, 2, 5⟩ by decide]
    simp [R34, gate_check, ScenarioFactors.get_factor]

/-- C8: refuted as stated — the Scenario Ranker never applies the G9
baseline-penalty term for any scenario or weight map, because
`calculate_weighted_score` raises (modelled `none`) before reaching it:
its goal-profile stage dies on the stale "F7" references. -/
theorem C8_weighted_score_raises (weights : List (String × ℝ)) (normalize : Bool) :
    calculate_weighted_score "S1" weights normalize = none ∧
    calculate_weighted_score "S2" weights normalize = none ∧
    calculate_weighted_score "S3" weights normalize = none ∧
    calculate_weighted_score "S4" weights normalize = none ∧
    calculate_weighted_score "S5" weights normalize = none ∧
    calculate_weighted_score "S6" weights normalize = none ∧
    calculate_weighted_score "S7" weights normalize = none ∧
    calculate_weighted_score "S8" weights normalize = none ∧
    calculate_weighted_score "S9" weights normalize = none ∧
    calculate_weighted_score "S10" weights normalize = none ∧
    calculate_weighted_score "S11" weights normalize = none :=
  ⟨weighted_score_none "S1" (by decide) weights normalize,
   weighted_score_none "S2" (by decide) weights normalize,
   weighted_score_none "S3" (by decide) weights normalize,
   weighted_score_none "S4" (by decide) weights normalize,
   weighted_score_none "S5" (by decide) weights normalize,
   weighted_score_none "S6" (by decide) weights normalize,
   weighted_score_none "S7" (by decide) weights normalize,
   weighted_score_none "S8" (by decide) weights normalize,
   weighted_score_none "S9" (by decide) weights normalize,
   weighted_score_none "S10" (by decide) weights normalize,
   weighted_score_none "S11" (by decide) weights normalize⟩

/-- C9: refuted as stated — `compute_goal_rankings` produces no ranking at
all: its first call, `calculate_scenario_goal_profile "S1"`, raises
(stale "F7"), so the whole utility raises.  Independently of the crash,
the rank assignment is hard-coded as `12 - rank_0` over the 11 scenarios of
the v6 catalog, which would assign the values 12..2 (best = 12, never
assigning 1), not a 1..N ordinal with N = 11 = best. -/
theorem C9_goal_rankings_raise : compute_goal_rankings = none := by
  unfold compute_goal_rankings
  have hids : SCENARIO_IDS = ["S1", "S2", "S3", "S4", "S5", "S6", "S7",
      "S8", "S9", "S10", "S11"] := by
    simp [SCENARIO_IDS, SCENARIO_FACTORS]
  rw [hids]
  rw [show rankings_raw ["S1", "S2", "S3", "S4", "S5", "S6", "S7",
      "S8", "S9", "S10", "S11"] = none by
    simp [rankings_raw, goal_profile_none "S1" (by decide)]]

/-- C10: the first half of the claim holds — the effect function is
strictly positive at every factor score 1..5, direction and strength — but
the "consequently" part fails on the code: for risks with a stale "F7"
sensitivity (R04 here) `calculate_adjusted_probability` raises instead of
returning a display modifier, so "modifier == 0 iff the gate fails" does
not hold for every known scenario and risk, and the `modifier == 0` filter
of `calculate_scenario_risk_profile` is never reached (the loop raises). -/
theorem C10_effect_positive_but_modifier_partial :
    (∀ (d : FactorDirection) (s : Sensitivity),
      0 < calculate_factor_effect 1 d s ∧ 0 < calculate_factor_effect 2 d s ∧
      0 < calculate_factor_effect 3 d s ∧ 0 < calculate_factor_effect 4 d s ∧
      0 < calculate_factor_effect 5 d s) ∧
    calculate_adjusted_probability "S1" "R04" = none :=
  ⟨fun d s => ⟨calculate_factor_effect_pos 1 d s, calculate_factor_effect_pos 2 d s,
    calculate_factor_effect_pos 3 d s, calculate_factor_effect_pos 4 d s,
    calculate_factor_effect_pos 5 d s⟩,
   adj_R04_none "S1" (by decide)⟩
